import Mathlib

/-!
Verification of the decoding-orchestration layer of whisper-openvino
(src/whisper/model.py) against its natural-language specification.

Shallow embedding conventions:
* numpy / torch multi-dimensional arrays are modelled by `Arr`: a shape
  together with a total contents function.  Only zero values are ever
  produced by this layer (float32 zero is exact), so contents live in ℚ.
* the external OpenVINO compiled models are modelled as pure functions
  (the spec, section 1, designates the inference engine an external
  collaborator "invoked as a pure function from input tensors to output
  tensors").
* a Python `raise` is modelled by `Except.error`.
* methods that receive `self` are modelled in state-passing style: they
  return their result together with the post-call `Whisper` object.  The
  source bodies of `embed_audio`, `logits` and `forward` contain no
  assignment to any attribute of `self`, so the returned object is built
  from the same fields as the incoming one.
-/

/-- Shape-and-contents model of a numpy ndarray / torch tensor: `shape` is
the dimension list, `get` gives the element stored at a (multi-)index. -/
structure Arr where
  shape : List Nat
  get : List Nat → ℚ

/-- Model of `np.zeros(size, dtype=np.float32)` (model.py line 113): an
array of the given shape whose every element is zero. -/
def npZeros (size : List Nat) : Arr :=
  { shape := size, get := fun _ => 0 }

/-- Model of `torch.from_numpy` (model.py lines 47 and 72): the conversion
shares memory with its argument, so shape and contents are unchanged. -/
def torch_from_numpy (a : Arr) : Arr := a

/-- A value passed by name to the decoder engine: either an array (the
`tokens`, `audio_features` and `kv_cache` entries) or the scalar integer
array `np.array(offset, dtype=int)` (model.py line 67). -/
inductive EngineValue where
  | arr : Arr → EngineValue
  | intScalar : Int → EngineValue

/-- The named outputs of the compiled decoder model: per the spec
(section 6) the decoder returns exactly the outputs named `logits` and
`output_kv_cache`, which model.py line 72 reads by those names. -/
structure DecoderEngineOut where
  logits : Arr
  output_kv_cache : Arr

/-- Model of `ModelDimensions` (model.py lines 16-27).  Python ints; all
fields are positive in every real checkpoint (spec, section 3). -/
structure ModelDimensions where
  n_mels : Nat
  n_audio_ctx : Nat
  n_audio_state : Nat
  n_audio_head : Nat
  n_audio_layer : Nat
  n_vocab : Nat
  n_text_ctx : Nat
  n_text_state : Nat
  n_text_head : Nat
  n_text_layer : Nat

/-- Model of the `Whisper` object (model.py lines 75-81): its persistent
fields are the architecture name `type`, the `dims` record, and the two
adapters, each reduced to its compiled inference-engine handle.  The
encoder engine takes the one positional mel tensor and yields its single
output `result[0]`; the decoder engine takes named inputs and yields its
named outputs. -/
structure Whisper where
  type : String
  dims : ModelDimensions
  encoderEngine : Arr → Arr
  decoderEngine : List (String × EngineValue) → DecoderEngineOut

/-- Model of `OpenVinoAudioEncoder.forward` (model.py lines 41-47): invoke
the compiled encoder once on `x` and wrap its single output with
`torch.from_numpy`. -/
def OpenVinoAudioEncoder.forward (engine : Arr → Arr) (x : Arr) : Arr :=
  torch_from_numpy (engine x)

/-- A store of numbered buffers, for stating frame (non-mutation)
properties of adapter calls: `bufs` maps a buffer id to its contents and
ids below `next` are the allocated ones. -/
structure Store where
  bufs : Nat → Arr
  next : Nat

/-- Read the contents of buffer `r`. -/
def Store.read (s : Store) (r : Nat) : Arr := s.bufs r

/-- Allocate a fresh buffer holding `a`, returning its id and the new
store. -/
def Store.alloc (s : Store) (a : Arr) : Nat × Store :=
  (s.next, { bufs := fun i => if i = s.next then a else s.bufs i, next := s.next + 1 })

/-- Buffer-level semantics of the same source lines 41-47, for the frame
property: the body reads the input buffer `x`, invokes the engine on its
contents (a pure function per the spec), and wraps the engine output —
which, with `share_outputs=True`, is the engine's own output buffer, a
buffer distinct from `x` — as the result.  No statement of the body
writes to `x`. -/
def OpenVinoAudioEncoder.forwardBuf (engine : Arr → Arr) (s : Store) (x : Nat) :
    Nat × Store :=
  s.alloc (torch_from_numpy (engine (s.read x)))

/-- Model of `OpenVinoTextDecoder.forward` (model.py lines 61-72): invoke
the compiled decoder on the named inputs `tokens`, `audio_features`,
`kv_cache` and `offset` (the offset as a scalar integer array) and return
the pair of its `logits` output (converted by `torch.from_numpy`) and its
`output_kv_cache` output. -/
def OpenVinoTextDecoder.forward
    (engine : List (String × EngineValue) → DecoderEngineOut)
    (x : Arr) (xa : Arr) (kv_cache : Arr) (offset : Int) : Arr × Arr :=
  let output := engine
    [("tokens", EngineValue.arr x),
     ("audio_features", EngineValue.arr xa),
     ("kv_cache", EngineValue.arr kv_cache),
     ("offset", EngineValue.intScalar offset)]
  (torch_from_numpy output.logits, output.output_kv_cache)

/-- Model of `Whisper.new_kv_cache` (model.py lines 100-113): branch on
the architecture name, build the shape list, and return
`np.zeros(size, dtype=np.float32)`; an unrecognized name raises
`ValueError` (modelled by `Except.error`). -/
def Whisper.new_kv_cache (w : Whisper) (n_group : Nat) (length : Nat) :
    Except String Arr :=
  if w.type = "tiny.en" ∨ w.type = "tiny" then
    Except.ok (npZeros [8, n_group, length, 384])
  else if w.type = "base.en" ∨ w.type = "base" then
    Except.ok (npZeros [12, n_group, length, 512])
  else if w.type = "small.en" ∨ w.type = "small" then
    Except.ok (npZeros [24, n_group, length, 768])
  else if w.type = "medium.en" ∨ w.type = "medium" then
    Except.ok (npZeros [48, n_group, length, 1024])
  else if w.type = "large" then
    Except.ok (npZeros [64, n_group, length, 1280])
  else
    Except.error ("Unsupported model type: " ++ w.type)

/-- Model of `Whisper.embed_audio` (model.py lines 83-84): delegate to the
encoder adapter; the body assigns no attribute of `self`, so the post-call
object is the incoming one. -/
def Whisper.embed_audio (w : Whisper) (mel : Arr) : Arr × Whisper :=
  (OpenVinoAudioEncoder.forward w.encoderEngine mel, w)

/-- Model of `Whisper.logits` (model.py lines 86-89): allocate a cache
from the token tensor's shape (`tokens.shape[0]` groups,
`tokens.shape[-1]` length), call the decoder at offset 0, keep the logits
and discard the updated cache.  The body assigns no attribute of `self`,
so the post-call object is the incoming one. -/
def Whisper.logits (w : Whisper) (tokens : Arr) (audio_features : Arr) :
    Except String (Arr × Whisper) := do
  let kv_cache ← w.new_kv_cache (tokens.shape.headD 0) (tokens.shape.getLastD 0)
  let r := OpenVinoTextDecoder.forward w.decoderEngine tokens audio_features kv_cache 0
  return (r.1, w)

/-- Model of `Whisper.forward` (model.py lines 91-94): allocate a cache
from the token tensor's shape, encode the mel tensor, call the decoder at
offset 0, keep the logits and discard the updated cache.  The body assigns
no attribute of `self`, so the post-call object is the incoming one. -/
def Whisper.forward (w : Whisper) (mel : Arr) (tokens : Arr) :
    Except String (Arr × Whisper) := do
  let kv_cache ← w.new_kv_cache (tokens.shape.headD 0) (tokens.shape.getLastD 0)
  let r := OpenVinoTextDecoder.forward w.decoderEngine tokens
    (OpenVinoAudioEncoder.forward w.encoderEngine mel) kv_cache 0
  return (r.1, w)

/-- Model of the property `Whisper.is_multilingual` (model.py lines
96-98). -/
def Whisper.is_multilingual (w : Whisper) : Bool :=
  w.dims.n_vocab == 51865

/-- The number of token positions consumed by one decoder call:
`tokens.shape[-1]` (spec, section 4.3, `step_len`). -/
def stepLen (tokens : Arr) : Nat := tokens.shape.getLastD 0

/-- The allocated running length of a cache: dimension 2 of its shape
(spec, section 3, KVCache shape
(attention_slot_count, group_count, running_length, embedding_width)). -/
def runningLength (kv_cache : Arr) : Nat := kv_cache.shape.getD 2 0

/-- Modelled from the spec: the Architecture Registry `geometry_for`
(spec, sections 4.1 and 4.4).  The repository code that builds the
`ModelDimensions` record for a named checkpoint (the model loader) is not
under src/; only the table of section 4.4 pins the text-stack geometry,
giving `(text_layer_count, text_embedding_width)` per variant, with
`slot_count = 2 × text_layer_count`.  Unrecognized names fail with
`UnsupportedArchitecture`. -/
def geometry_for (name : String) : Except String (Nat × Nat) :=
  if name = "tiny" ∨ name = "tiny.en" then Except.ok (4, 384)
  else if name = "base" ∨ name = "base.en" then Except.ok (6, 512)
  else if name = "small" ∨ name = "small.en" then Except.ok (12, 768)
  else if name = "medium" ∨ name = "medium.en" then Except.ok (24, 1024)
  else if name = "large" then Except.ok (32, 1280)
  else Except.error "UnsupportedArchitecture"

/-- A concrete decoder engine (constant function) used for witnesses. -/
def constDecoderEngine : List (String × EngineValue) → DecoderEngineOut :=
  fun _ => { logits := npZeros [1, 1, 51865], output_kv_cache := npZeros [12, 1, 448, 512] }

/-- A concrete encoder engine (constant function) used for witnesses. -/
def constEncoderEngine : Arr → Arr :=
  fun _ => npZeros [1, 1500, 512]

/-- The published dimensions of the base checkpoint. -/
def baseDims : ModelDimensions :=
  { n_mels := 80, n_audio_ctx := 1500, n_audio_state := 512, n_audio_head := 8,
    n_audio_layer := 6, n_vocab := 51865, n_text_ctx := 448, n_text_state := 512,
    n_text_head := 8, n_text_layer := 6 }

/-- A concrete `Whisper` object of architecture "base", for witnesses. -/
def whisperBase : Whisper :=
  { type := "base", dims := baseDims,
    encoderEngine := constEncoderEngine, decoderEngine := constDecoderEngine }

/-- A concrete `Whisper` object with the unrecognized architecture name
"huge", for witnesses. -/
def whisperHuge : Whisper :=
  { type := "huge", dims := baseDims,
    encoderEngine := constEncoderEngine, decoderEngine := constDecoderEngine }

/-- A decoder engine for the overflow scenario: logits for a five-token
step, echoing a running-length-3 cache. -/
def cexEngine : List (String × EngineValue) → DecoderEngineOut :=
  fun _ => { logits := npZeros [1, 5, 51865], output_kv_cache := npZeros [12, 1, 3, 512] }

/-- A token tensor of one group and five token positions. -/
def cexTokens : Arr := npZeros [1, 5]

/-- An audio-features tensor for the base geometry. -/
def cexAudio : Arr := npZeros [1, 1500, 512]

/-- A base-geometry cache whose allocated running length is only 3. -/
def cexCache : Arr := npZeros [12, 1, 3, 512]

/-- A store holding one allocated buffer (id 0), for frame witnesses. -/
def store0 : Store :=
  { bufs := fun _ => npZeros [1, 80, 3000], next := 1 }

/-- Helper: every cache successfully returned by `new_kv_cache` is
zero-filled, since each success branch returns `npZeros`. -/
theorem new_kv_cache_all_zero (w : Whisper) (g L : Nat) (a : Arr)
    (h : w.new_kv_cache g L = Except.ok a) : ∀ ix, a.get ix = 0 := by
  intro ix
  unfold Whisper.new_kv_cache at h
  split at h
  any_goals (injection h with h2; subst h2; rfl)
  split at h
  any_goals (injection h with h2; subst h2; rfl)
  split at h
  any_goals (injection h with h2; subst h2; rfl)
  split at h
  any_goals (injection h with h2; subst h2; rfl)
  split at h
  any_goals (injection h with h2; subst h2; rfl)
  exact Except.noConfusion h

/-- C1: for every supported architecture name and every group count g and
length L, `new_kv_cache` returns a zero tensor of shape
[slot_count, g, L, embedding_width] with exactly the table pairs
tiny(.en) (8, 384), base(.en) (12, 512), small(.en) (24, 768),
medium(.en) (48, 1024), large (64, 1280); in particular for "base" with
g = 1 and L = 448 the shape is [12, 1, 448, 512]. -/
theorem c1_new_kv_cache_geometry (w : Whisper) (g L : Nat) :
    ((w.type = "tiny" ∨ w.type = "tiny.en") →
      ∃ a, w.new_kv_cache g L = Except.ok a ∧ a.shape = [8, g, L, 384]) ∧
    ((w.type = "base" ∨ w.type = "base.en") →
      ∃ a, w.new_kv_cache g L = Except.ok a ∧ a.shape = [12, g, L, 512]) ∧
    ((w.type = "small" ∨ w.type = "small.en") →
      ∃ a, w.new_kv_cache g L = Except.ok a ∧ a.shape = [24, g, L, 768]) ∧
    ((w.type = "medium" ∨ w.type = "medium.en") →
      ∃ a, w.new_kv_cache g L = Except.ok a ∧ a.shape = [48, g, L, 1024]) ∧
    (w.type = "large" →
      ∃ a, w.new_kv_cache g L = Except.ok a ∧ a.shape = [64, g, L, 1280]) ∧
    (w.type = "base" →
      ∃ a, w.new_kv_cache 1 448 = Except.ok a ∧ a.shape = [12, 1, 448, 512]) := by
  refine ⟨?_, ?_, ?_, ?_, ?_, ?_⟩
  · rintro (h | h) <;>
      exact ⟨npZeros [8, g, L, 384], by simp [Whisper.new_kv_cache, h], rfl⟩
  · rintro (h | h) <;>
      exact ⟨npZeros [12, g, L, 512], by simp [Whisper.new_kv_cache, h], rfl⟩
  · rintro (h | h) <;>
      exact ⟨npZeros [24, g, L, 768], by simp [Whisper.new_kv_cache, h], rfl⟩
  · rintro (h | h) <;>
      exact ⟨npZeros [48, g, L, 1024], by simp [Whisper.new_kv_cache, h], rfl⟩
  · intro h
    exact ⟨npZeros [64, g, L, 1280], by simp [Whisper.new_kv_cache, h], rfl⟩
  · intro h
    exact ⟨npZeros [12, 1, 448, 512], by simp [Whisper.new_kv_cache, h], rfl⟩

/-- C1 witness: the end-to-end instance for architecture "base" with
group count 1 and length 448. -/
theorem c1_witness :
    ∃ a, whisperBase.new_kv_cache 1 448 = Except.ok a ∧
      a.shape = [12, 1, 448, 512] :=
  (c1_new_kv_cache_geometry whisperBase 1 448).2.2.2.2.2 rfl

/-- C2: for every supported architecture name, the first dimension of the
allocated cache equals 2 × dims.n_text_layer, provided the
`ModelDimensions` supplied at construction match the architecture name
(its text layer count agrees with the registry geometry for that
name). -/
theorem c2_slot_count_is_twice_text_layers (w : Whisper)
    (layers width g L : Nat)
    (hgeo : geometry_for w.type = Except.ok (layers, width))
    (hdims : w.dims.n_text_layer = layers) :
    ∃ a, w.new_kv_cache g L = Except.ok a ∧
      a.shape.headD 0 = 2 * w.dims.n_text_layer := by
  unfold geometry_for at hgeo
  rw [hdims]
  split at hgeo
  · rename_i h
    simp only [Except.ok.injEq, Prod.mk.injEq] at hgeo
    rw [hgeo.1.symm]
    rcases h with h | h <;>
      exact ⟨npZeros [8, g, L, 384], by simp [Whisper.new_kv_cache, h], rfl⟩
  · split at hgeo
    · rename_i h
      simp only [Except.ok.injEq, Prod.mk.injEq] at hgeo
      rw [hgeo.1.symm]
      rcases h with h | h <;>
        exact ⟨npZeros [12, g, L, 512], by simp [Whisper.new_kv_cache, h], rfl⟩
    · split at hgeo
      · rename_i h
        simp only [Except.ok.injEq, Prod.mk.injEq] at hgeo
        rw [hgeo.1.symm]
        rcases h with h | h <;>
          exact ⟨npZeros [24, g, L, 768], by simp [Whisper.new_kv_cache, h], rfl⟩
      · split at hgeo
        · rename_i h
          simp only [Except.ok.injEq, Prod.mk.injEq] at hgeo
          rw [hgeo.1.symm]
          rcases h with h | h <;>
            exact ⟨npZeros [48, g, L, 1024], by simp [Whisper.new_kv_cache, h], rfl⟩
        · split at hgeo
          · rename_i h
            simp only [Except.ok.injEq, Prod.mk.injEq] at hgeo
            rw [hgeo.1.symm]
            exact ⟨npZeros [64, g, L, 1280], by simp [Whisper.new_kv_cache, h], rfl⟩
          · exact Except.noConfusion hgeo

/-- C2 witness: the base model with matching dimensions (six text layers)
yields a cache whose first dimension is 2 × 6 = 12. -/
theorem c2_witness :
    ∃ a, whisperBase.new_kv_cache 2 10 = Except.ok a ∧
      a.shape.headD 0 = 2 * whisperBase.dims.n_text_layer :=
  c2_slot_count_is_twice_text_layers whisperBase 6 512 2 10 rfl rfl

/-- C3: for every architecture name outside the recognized set and every
group count and length, `new_kv_cache` raises the unsupported-model-type
`ValueError` and returns no buffer. -/
theorem c3_unsupported_name_errors (w : Whisper) (g L : Nat)
    (h : w.type ∉ (["tiny", "tiny.en", "base", "base.en", "small",
        "small.en", "medium", "medium.en", "large"] : List String)) :
    w.new_kv_cache g L = Except.error ("Unsupported model type: " ++ w.type) := by
  simp only [List.mem_cons, List.not_mem_nil, or_false, not_or] at h
  obtain ⟨h1, h2, h3, h4, h5, h6, h7, h8, h9⟩ := h
  simp [Whisper.new_kv_cache, h1, h2, h3, h4, h5, h6, h7, h8, h9]

/-- C3 witness: the unrecognized name "huge" fails. -/
theorem c3_witness :
    whisperHuge.new_kv_cache 1 448
      = Except.error ("Unsupported model type: " ++ whisperHuge.type) :=
  c3_unsupported_name_errors whisperHuge 1 448 (by decide)

/-- C4: every cache returned by `new_kv_cache` is entirely zero-filled:
each element of the returned buffer equals 0. -/
theorem c4_cache_zero_filled (w : Whisper) (g L : Nat) (a : Arr)
    (h : w.new_kv_cache g L = Except.ok a) : ∀ ix, a.get ix = 0 :=
  new_kv_cache_all_zero w g L a h

/-- C4 witness: the base cache of shape [12, 1, 448, 512] reads 0 at a
concrete index. -/
theorem c4_witness :
    whisperBase.new_kv_cache 1 448 = Except.ok (npZeros [12, 1, 448, 512]) ∧
    (npZeros [12, 1, 448, 512]).get [3, 0, 17, 200] = 0 := by
  refine ⟨by simp [Whisper.new_kv_cache, whisperBase], ?_⟩
  exact c4_cache_zero_filled whisperBase 1 448 (npZeros [12, 1, 448, 512])
    (by simp [Whisper.new_kv_cache, whisperBase]) [3, 0, 17, 200]

/-- C5 counterexample: a cache of running length 3 and a five-token step
at offset 0 (so offset + step_len = 5 > 3 overflows the allocated
capacity), yet the adapter call does not fail: it completes and hands
back the engine outputs.  The source body of
`OpenVinoTextDecoder.forward` contains no capacity check and no error
path. -/
theorem c5_counterexample :
    (0 : Int) + (stepLen cexTokens : Int) > (runningLength cexCache : Int) ∧
    OpenVinoTextDecoder.forward cexEngine cexTokens cexAudio cexCache 0
      = (npZeros [1, 5, 51865], npZeros [12, 1, 3, 512]) := by
  exact ⟨by decide, rfl⟩

/-- C5 amended: the adapter performs no capacity check of its own — even
when offset + step_len exceeds the cache running length, the call
completes normally and returns exactly the engine outputs (no
CacheOverflow error is raised by this code; any such enforcement is left
to the external engine). -/
theorem c5_no_capacity_check
    (engine : List (String × EngineValue) → DecoderEngineOut)
    (x xa kv_cache : Arr) (offset : Int)
    (_hover : offset + (stepLen x : Int) > (runningLength kv_cache : Int)) :
    OpenVinoTextDecoder.forward engine x xa kv_cache offset
      = (torch_from_numpy (engine
          [("tokens", EngineValue.arr x),
           ("audio_features", EngineValue.arr xa),
           ("kv_cache", EngineValue.arr kv_cache),
           ("offset", EngineValue.intScalar offset)]).logits,
         (engine
          [("tokens", EngineValue.arr x),
           ("audio_features", EngineValue.arr xa),
           ("kv_cache", EngineValue.arr kv_cache),
           ("offset", EngineValue.intScalar offset)]).output_kv_cache) := rfl

/-- C5 witness for the amended claim, at the concrete overflow
scenario. -/
theorem c5_witness :
    OpenVinoTextDecoder.forward cexEngine cexTokens cexAudio cexCache 0
      = (torch_from_numpy (cexEngine
          [("tokens", EngineValue.arr cexTokens),
           ("audio_features", EngineValue.arr cexAudio),
           ("kv_cache", EngineValue.arr cexCache),
           ("offset", EngineValue.intScalar 0)]).logits,
         (cexEngine
          [("tokens", EngineValue.arr cexTokens),
           ("audio_features", EngineValue.arr cexAudio),
           ("kv_cache", EngineValue.arr cexCache),
           ("offset", EngineValue.intScalar 0)]).output_kv_cache) :=
  c5_no_capacity_check cexEngine cexTokens cexAudio cexCache 0 (by decide)

/-- C6: the decoder adapter invokes the engine with exactly the named
inputs tokens, audio_features, kv_cache and offset (the offset as a
scalar integer value), and returns exactly the pair of named outputs
logits (converted to the caller tensor type by torch.from_numpy) and
output_kv_cache. -/
theorem c6_decoder_named_io
    (engine : List (String × EngineValue) → DecoderEngineOut)
    (x xa kv_cache : Arr) (offset : Int) :
    ∃ inputs : List (String × EngineValue),
      inputs.map Prod.fst = ["tokens", "audio_features", "kv_cache", "offset"] ∧
      inputs.lookup ("tokens") = some (EngineValue.arr x) ∧
      inputs.lookup ("audio_features") = some (EngineValue.arr xa) ∧
      inputs.lookup ("kv_cache") = some (EngineValue.arr kv_cache) ∧
      inputs.lookup ("offset") = some (EngineValue.intScalar offset) ∧
      OpenVinoTextDecoder.forward engine x xa kv_cache offset
        = (torch_from_numpy (engine inputs).logits,
           (engine inputs).output_kv_cache) := by
  exact ⟨[("tokens", EngineValue.arr x),
          ("audio_features", EngineValue.arr xa),
          ("kv_cache", EngineValue.arr kv_cache),
          ("offset", EngineValue.intScalar offset)],
         rfl, rfl, rfl, rfl, rfl, rfl⟩

/-- C7: the one-shot logits operation allocates its own fresh zero-filled
cache sized to the given token tensor, calls the decoder at offset 0 with
that cache, keeps only the logits (the updated cache is discarded), and
returns the model object with every persistent field (type, dims,
encoder, decoder) unchanged — no state carries over to or from a
decoding session. -/
theorem c7_logits_throwaway_cache (w : Whisper)
    (tokens audio_features a : Arr)
    (h : w.new_kv_cache (tokens.shape.headD 0) (tokens.shape.getLastD 0)
      = Except.ok a) :
    (∀ ix, a.get ix = 0) ∧
    w.logits tokens audio_features
      = Except.ok
          ((OpenVinoTextDecoder.forward w.decoderEngine tokens
              audio_features a 0).1, w) := by
  refine ⟨new_kv_cache_all_zero w _ _ a h, ?_⟩
  unfold Whisper.logits
  rw [h]
  rfl

/-- C7 witness: the base model with a one-group, three-token tensor. -/
theorem c7_witness :
    (∀ ix, (npZeros [12, 1, 3, 512]).get ix = 0) ∧
    whisperBase.logits (npZeros [1, 3]) cexAudio
      = Except.ok
          ((OpenVinoTextDecoder.forward whisperBase.decoderEngine
              (npZeros [1, 3]) cexAudio (npZeros [12, 1, 3, 512]) 0).1,
           whisperBase) :=
  c7_logits_throwaway_cache whisperBase (npZeros [1, 3]) cexAudio
    (npZeros [12, 1, 3, 512]) (by simp [Whisper.new_kv_cache, whisperBase, npZeros])

/-- C8: the audio encoder adapter does not mutate its input: after a call
that reads allocated buffer x, the store contents at x equal the contents
before the call (the result lives in a freshly allocated buffer). -/
theorem c8_encoder_input_unchanged (engine : Arr → Arr) (s : Store)
    (x : Nat) (h : x < s.next) :
    ((OpenVinoAudioEncoder.forwardBuf engine s x).2).read x = s.read x := by
  simp [OpenVinoAudioEncoder.forwardBuf, Store.alloc, Store.read,
    Nat.ne_of_lt h]

/-- C8 witness: a one-buffer store, encoding buffer 0. -/
theorem c8_witness :
    0 < store0.next ∧
    ((OpenVinoAudioEncoder.forwardBuf constEncoderEngine store0 0).2).read 0
      = store0.read 0 :=
  ⟨by decide, c8_encoder_input_unchanged constEncoderEngine store0 0 (by decide)⟩

/-- C9: the full forward pass equals composing the public pieces: forward
mel tokens and logits applied to the embedded audio (with the object
returned by embed_audio) agree — both allocate the identical fresh zero
cache from the token shape and invoke the decoder at offset 0; the
engines are functions of their inputs (deterministic). -/
theorem c9_forward_eq_logits_embed (w : Whisper) (mel tokens : Arr) :
    w.forward mel tokens
      = ((w.embed_audio mel).2).logits tokens (w.embed_audio mel).1 := rfl

/-- C10: the is_multilingual property holds exactly when the vocabulary
size equals 51865. -/
theorem c10_is_multilingual_iff (w : Whisper) :
    w.is_multilingual = true ↔ w.dims.n_vocab = 51865 := by
  simp [Whisper.is_multilingual]
